import Mathlib

/-!
Shallow embedding of the raygun4reactnative session and event-transmission
engine, translated from the TypeScript sources:

* `src/src/RaygunClient.ts` — session state, `getCleanSession`, `clearSession`,
  `generateCrashReportPayload`;
* `src/sdk/src/RealUserMonitor.ts` — the RUM session rotation logic
  (`transmitRealUserMonitoringEvent` / `rotateRUMSession`), the view timing
  correlator (`viewBeginsLoading` / `viewFinishesLoading` / `cleanViewName`),
  the network activity correlator (`handleRequestOpen` / `handleRequestSend` /
  `handleResponse`) and `sendCustomRUMEvent`;
* `src/unnamed/part_000` — the second RealUserMonitor variant, whose
  `sendCustomRUMEvent` differs in its handling of unknown event types.

JavaScript `Map` objects are embedded as association lists with the
insertion-order / overwrite-in-place semantics of `Map.set`, `Map.get`,
`Map.has` and `Map.delete`.  Absent (`undefined`) values are embedded as
`Option`; the JavaScript expression `Date.now() - undefined` evaluates to
`NaN`, which is embedded as `none` in the duration field.  Wall-clock reads
(`Date.now()`) are threaded explicitly: stateful entry points take the
current clock value (or, for the mutually recursive transmit/rotate pair, a
stream of successive clock readings) as a parameter.  External collaborators
that live outside the repository (`getDeviceId`, `getDeviceBasedId`,
`shouldIgnoreURL`, `shouldIgnoreView`, the native environment-info bridge)
are passed in as parameters, since only their results flow into this code.
-/

namespace Raygun

/-! ## Association-list model of the JavaScript `Map` -/

/-- `Map.get k`: the value stored under the first (unique) matching key. -/
def lookupAssoc {α : Type} (k : String) : List (String × α) → Option α
  | [] => none
  | (k', v) :: rest => if k' = k then some v else lookupAssoc k rest

/-- `Map.set k v`: overwrite in place when the key exists, append otherwise. -/
def setAssoc {α : Type} (k : String) (v : α) : List (String × α) → List (String × α)
  | [] => [(k, v)]
  | (k', v') :: rest => if k' = k then (k', v) :: rest else (k', v') :: setAssoc k v rest

/-- `Map.delete k`: remove the entry stored under `k` (first occurrence). -/
def deleteAssoc {α : Type} (k : String) : List (String × α) → List (String × α)
  | [] => []
  | (k', v') :: rest => if k' = k then rest else (k', v') :: deleteAssoc k rest

/-! ## Session state (`RaygunClient.ts`) -/

/-- A JSON-serializable custom-data value. -/
inductive JsonVal : Type
  | str (s : String)
  | num (n : Int)
  | bool (b : Bool)
  | null
deriving Repr, DecidableEq

/-- `CustomData`: a string-keyed map of JSON-serializable values. -/
abbrev CustomData := List (String × JsonVal)

/-- The `User` identity record of `types.ts` as used by `RaygunClient.ts`. -/
structure User where
  identifier : String
  isAnonymous : Bool := false
  email : String := ""
  firstName : String := ""
  fullName : String := ""
deriving Repr, DecidableEq

/-- A `Breadcrumb` record: message, category, level, custom data, timestamp. -/
structure Breadcrumb where
  message : String
  category : String := ""
  level : String := "info"
  customData : CustomData := []
  timestamp : Int := 0
deriving Repr, DecidableEq

/-- The mutable `Session` record: tags (a JS `Set`, embedded as an
insertion-ordered duplicate-free list), custom data, breadcrumbs, user. -/
structure Session where
  tags : List String
  customData : CustomData
  breadcrumbs : List Breadcrumb
  user : User
deriving Repr, DecidableEq

/-- `getCleanSession()`: tags seeded with the `'React Native'` tag, empty
custom data and breadcrumbs, and an `anonymous-` device-derived identifier.
`getDeviceBasedId()` is an external collaborator, passed as `deviceId`. -/
def getCleanSession (deviceId : String) : Session :=
  { tags := ["React Native"]
    customData := []
    breadcrumbs := []
    user := { identifier := "anonymous-" ++ deviceId } }

/-- `clearSession()`: replace the current session wholesale with a clean one
(the previous session is discarded; the native-mirror notification has no
effect on the in-memory record). -/
def clearSession (deviceId : String) (_prev : Session) : Session :=
  getCleanSession deviceId

/-! ## Crash report builder (`generateCrashReportPayload`) -/

/-- The JavaScript `x || d` default for possibly-absent strings: `undefined`,
`null` and the empty string all fall through to the default. -/
def jsOrString (x : Option String) (d : String) : String :=
  match x with
  | none => d
  | some s => if s = "" then d else s

/-- A raw JavaScript `Error` as consumed by `generateCrashReportPayload`:
`name` and `message` may be absent, `toString()` gives the string form. -/
structure JSError where
  name : Option String
  message : Option String
  stringForm : String
deriving Repr, DecidableEq

/-- A `StackFrame` from the react-native stack parser. -/
structure StackFrame where
  file : String
  methodName : Option String
  lineNumber : Int
  column : Int
deriving Repr, DecidableEq

/-- `stackFrames` is accepted either as an array of frames or as a single
frame (the `Array.isArray` check in the source). -/
inductive StackFramesInput : Type
  | arr (frames : List StackFrame)
  | single (f : StackFrame)
deriving Repr, DecidableEq

/-- One entry of `Details.Error.StackTrace` in the wire payload. -/
structure CrashFrame where
  FileName : String
  MethodName : String
  LineNumber : Int
  ColumnNumber : Int
  ClassName : String
deriving Repr, DecidableEq

/-- `convertToCrashReportingStackFrame` from `generateCrashReportPayload`. -/
def convertToCrashReportingStackFrame (f : StackFrame) : CrashFrame :=
  { FileName := f.file
    MethodName := jsOrString f.methodName "[anonymous]"
    LineNumber := f.lineNumber
    ColumnNumber := f.column
    ClassName := "line " ++ toString f.lineNumber ++ ", column " ++ toString f.column }

/-- `Details.Error` of the crash payload. -/
structure ErrorDetails where
  ClassName : String
  Message : String
  StackTrace : List CrashFrame
  StackString : String
deriving Repr, DecidableEq

/-- `Details.Environment`: the defaults `UtcOffset`/`JailBroken`, either of
which the native environment-info collaborator's object spread may
overwrite. -/
structure EnvironmentDetails where
  UtcOffset : Rat
  JailBroken : Bool
deriving Repr, DecidableEq

/-- Overrides supplied by `RaygunNativeBridge.getEnvironmentInfo()`; `none`
means the collaborator's object did not contain that key. -/
structure EnvironmentOverrides where
  UtcOffset : Option Rat := none
  JailBroken : Option Bool := none
deriving Repr, DecidableEq

/-- `Details.Client`. -/
structure ClientInfo where
  Name : String
  Version : String
deriving Repr, DecidableEq

/-- `upperFirst(user)`: the user record normalized to capitalized wire keys. -/
structure WireUser where
  Identifier : String
  IsAnonymous : Bool
  Email : String
  FirstName : String
  FullName : String
deriving Repr, DecidableEq

/-- `upperFirst` applied to the session user. -/
def upperFirstUser (u : User) : WireUser :=
  { Identifier := u.identifier
    IsAnonymous := u.isAnonymous
    Email := u.email
    FirstName := u.firstName
    FullName := u.fullName }

/-- `upperFirst(breadcrumb)`: a breadcrumb normalized to capitalized keys. -/
structure WireBreadcrumb where
  Message : String
  Category : String
  Level : String
  CustomData : CustomData
  Timestamp : Int
deriving Repr, DecidableEq

/-- `upperFirst` applied to one breadcrumb. -/
def upperFirstBreadcrumb (b : Breadcrumb) : WireBreadcrumb :=
  { Message := b.message
    Category := b.category
    Level := b.level
    CustomData := b.customData
    Timestamp := b.timestamp }

/-- `Details` of the crash payload. -/
structure CrashReportDetails where
  Error : ErrorDetails
  Environment : EnvironmentDetails
  Client : ClientInfo
  UserCustomData : CustomData
  Tags : List String
  User : WireUser
  Breadcrumbs : List WireBreadcrumb
  Version : String
deriving Repr, DecidableEq

/-- The full `CrashReportPayload`. -/
structure CrashReportPayload where
  OccurredOn : Int
  Details : CrashReportDetails
deriving Repr, DecidableEq

/-- `generateCrashReportPayload(error, stackFrames, session)`.  The external
inputs the source reads besides its arguments are threaded as parameters:
`occurredOn` (`new Date()`), `tzOffsetMinutes` (`getTimezoneOffset()`), `env`
(the environment-info collaborator's overrides), `clientVersion`
(`package.json`), `platformOS` (`Platform.OS`) and `globalVersion`
(`GlobalOptions.version`, defaulting to `'Not supplied'` when falsy). -/
def generateCrashReportPayload (occurredOn : Int) (tzOffsetMinutes : Int)
    (env : EnvironmentOverrides) (clientVersion platformOS globalVersion : String)
    (error : JSError) (stackFrames : StackFramesInput) (session : Session) :
    CrashReportPayload :=
  { OccurredOn := occurredOn
    Details :=
      { Error :=
          { ClassName := jsOrString error.name ""
            Message := jsOrString error.message ""
            StackTrace :=
              match stackFrames with
              | .arr frames => frames.map convertToCrashReportingStackFrame
              | .single f => [convertToCrashReportingStackFrame f]
            StackString := error.stringForm }
        Environment :=
          { UtcOffset := env.UtcOffset.getD ((tzOffsetMinutes : Rat) / 60)
            JailBroken := env.JailBroken.getD false }
        Client :=
          { Name := "raygun4reactnative." ++ platformOS
            Version := clientVersion }
        UserCustomData := session.customData
        Tags := session.tags
        User := upperFirstUser session.user
        Breadcrumbs := session.breadcrumbs.map upperFirstBreadcrumb
        Version := if globalVersion = "" then "Not supplied" else globalVersion } }

/-! ## RUM session management (`RealUserMonitor.ts`)

`transmitRealUserMonitoringEvent` first checks
`Date.now() - lastSessionInteractionTime > SessionRotateThreshold`; when the
session is expired it awaits `rotateRUMSession`, which awaits a recursive
`transmitRealUserMonitoringEvent(SessionEnd)` before generating a new id and
marking the interaction time.  The two methods are embedded as one
fuel-indexed interpreter `rumRun` over an explicit state; `clock` is the
stream of successive `Date.now()` readings and `k` counts how many have been
consumed.  `getRandomGUID` is embedded as a fresh-id counter.  An emitted
event is recorded as the pair of its type string and the session id it is
sent under; a `none` result means the fuel ran out before the call
returned. -/

/-- `SessionRotateThreshold = 30 * 60 * 1000` milliseconds. -/
def sessionRotateThreshold : Int := 30 * 60 * 1000

/-- The RealUserMonitor state: `lastSessionInteractionTime`,
`RealUserMonitoringSessionId` (abstracted to a counter-allocated `Nat`), the
next fresh id, and the list of events sent so far (type, session id). -/
structure RUMState where
  lastSessionInteractionTime : Int
  sessionId : Nat
  nextSessionId : Nat
  events : List (String × Nat)
deriving Repr, DecidableEq

/-- A pending call: `transmitRealUserMonitoringEvent ev` or
`rotateRUMSession`. -/
inductive RUMCall : Type
  | transmit (eventName : String)
  | rotate
deriving Repr, DecidableEq

/-- Record the `fetch` of one RUM event payload under the current id. -/
def emitEvent (ev : String) (st : RUMState) : RUMState :=
  { st with events := st.events ++ [(ev, st.sessionId)] }

/-- The transmit/rotate pair of `RealUserMonitor.ts`, line by line:

* `transmit ev`: read `clock k`; if `clock k - lastSessionInteractionTime >
  sessionRotateThreshold`, run `rotate` (consuming fuel), then build and send
  the payload; otherwise `markSessionInteraction()` (a second clock read) and
  send the payload.
* `rotate`: run `transmit "SessionEnd"`, then `generateNewSessionId()`,
  `markSessionInteraction()` (one clock read), and run
  `transmit "SessionStart"`. -/
def rumRun (clock : Nat → Int) : Nat → RUMCall → Nat → RUMState → Option (RUMState × Nat)
  | 0, _, _, _ => none
  | Nat.succ fuel, RUMCall.transmit ev, k, st =>
    if clock k - st.lastSessionInteractionTime > sessionRotateThreshold then
      match rumRun clock fuel RUMCall.rotate (k + 1) st with
      | none => none
      | some (st1, k1) => some (emitEvent ev st1, k1)
    else
      some (emitEvent ev { st with lastSessionInteractionTime := clock (k + 1) }, k + 2)
  | Nat.succ fuel, RUMCall.rotate, k, st =>
    match rumRun clock fuel (RUMCall.transmit "SessionEnd") k st with
    | none => none
    | some (st1, k1) =>
      let st2 : RUMState :=
        { st1 with
          sessionId := st1.nextSessionId
          nextSessionId := st1.nextSessionId + 1
          lastSessionInteractionTime := clock k1 }
      rumRun clock fuel (RUMCall.transmit "SessionStart") (k1 + 1) st2

/-! ## Custom RUM event dispatch (`sendCustomRUMEvent`, both variants)

The event-type enum lives in `Types.ts`; only the identity of its two
members matters here, so they are embedded as two distinguished strings. -/

/-- `RealUserMonitoringTimings.ViewLoaded`. -/
def kViewLoaded : String := "ViewLoaded"

/-- `RealUserMonitoringTimings.NetworkCall`. -/
def kNetworkCall : String := "NetworkCall"

/-- A downstream action requested by `sendCustomRUMEvent`: either the
view-loaded path or the network timing path (name, send time, duration). -/
inductive RUMAction : Type
  | viewLoaded (name : String) (duration : Int)
  | networkTiming (name : String) (sendTime : Int) (duration : Int)
deriving Repr, DecidableEq

/-- `sendCustomRUMEvent` of `src/sdk/src/RealUserMonitor.ts`: ViewLoaded
routes to `sendViewLoadedEvent`, NetworkCall to `sendNetworkTimingEvent`
with start `now - duration`; anything else falls through the two `if`
statements silently.  Result: (actions requested, warnings logged). -/
def sendCustomRUMEvent (now : Int) (eventType name : String) (duration : Int) :
    List RUMAction × List String :=
  if eventType = kViewLoaded then ([RUMAction.viewLoaded name duration], [])
  else if eventType = kNetworkCall then
    ([RUMAction.networkTiming name (now - duration) duration], [])
  else ([], [])

/-- `sendCustomRUMEvent` of `src/unnamed/part_000`: same two routes
(`reportStartupTime` plays the view-loaded role), but an unknown event type
reaches `warn('Unknown RUM event type:', eventType)`. -/
def sendCustomRUMEventV0 (now : Int) (eventType name : String) (duration : Int) :
    List RUMAction × List String :=
  if eventType = kViewLoaded then ([RUMAction.viewLoaded name duration], [])
  else if eventType = kNetworkCall then
    ([RUMAction.networkTiming name (now - duration) duration], [])
  else ([], ["Unknown RUM event type:"])

/-! ## View timing correlator (`viewBeginsLoading` / `viewFinishesLoading`) -/

/-- Remove the first occurrence of `pat` from `s` (the single-replacement
semantics of JavaScript `String.replace(pat, '')`). -/
def removeFirstOcc (pat : List Char) : List Char → List Char
  | [] => []
  | c :: cs =>
    match (c :: cs).dropPrefix? pat with
    | some rest => rest
    | none => c :: removeFirstOcc pat cs

/-- `cleanViewName(viewname)`: when the name starts with `"iOS_View: "`,
strip that wrapper (`replace` of the prefix, then of the first `<` and `>`),
then keep the part before the first `:` (`split(':')[0]`); otherwise return
the name unchanged. -/
def cleanViewName (viewname : String) : String :=
  if viewname.startsWith "iOS_View: " then
    let s1 := removeFirstOcc "iOS_View: ".data viewname.data
    let s2 := removeFirstOcc ['<'] s1
    let s3 := removeFirstOcc ['>'] s2
    String.mk (s3.takeWhile (fun c => c ≠ ':'))
  else viewname

/-- The `loadingViews` map: view name to recorded start time. -/
abbrev LoadingViews := List (String × Int)

/-- `viewBeginsLoading({viewname, time})`: if a record is already pending
for `viewname`, return without touching the map; else store
`viewname → time`. -/
def viewBeginsLoading (viewname : String) (time : Int) (m : LoadingViews) : LoadingViews :=
  if (lookupAssoc viewname m).isSome then m
  else setAssoc viewname time m

/-- One emitted ViewLoaded timing event: the cleaned view name and the
computed duration (the payload
`{name, timing: {type: ViewLoaded, duration}}`). -/
structure ViewEvent where
  name : String
  duration : Int
deriving Repr, DecidableEq

/-- `viewFinishesLoading({viewname, time})` followed by
`sendViewLoadedEvent`: when a record is pending and its start time is truthy
(`!!viewLoadStartTime` — zero is falsy), compute
`duration = Math.round(time - startTime)` (the identity on integral
values), delete the record, clean the name, and — unless
`shouldIgnoreView` (an external collaborator, passed as `ignoreView`)
matches the cleaned name — request one ViewLoaded timing event.  When no
record is pending, or the stored start time is falsy, only a debug line is
logged: no event and no deletion.  Result: (new map, events emitted). -/
def viewFinishesLoading (ignoreView : String → Bool) (viewname : String) (time : Int)
    (m : LoadingViews) : LoadingViews × List ViewEvent :=
  match lookupAssoc viewname m with
  | none => (m, [])
  | some viewLoadStartTime =>
    if viewLoadStartTime ≠ 0 then
      let duration := time - viewLoadStartTime
      let m1 := deleteAssoc viewname m
      if ignoreView (cleanViewName viewname) then (m1, [])
      else (m1, [{ name := cleanViewName viewname, duration := duration }])
    else (m, [])

/-! ## Network activity correlator
(`handleRequestOpen` / `handleRequestSend` / `handleResponse`) -/

/-- The per-in-flight-request record: `{name, sendTime?}` (`sendTime` is
absent until `handleRequestSend` stamps it). -/
structure RequestMeta where
  name : String
  sendTime : Option Int := none
deriving Repr, DecidableEq

/-- The `requests` map, keyed by the id stored in `xhr._id_`. -/
abbrev RequestMap := List (String × RequestMeta)

/-- `handleRequestOpen(method, url, xhr)`: if `shouldIgnoreURL(url, ...)`
(external collaborator, passed as `ignoreURL`) matches, do nothing;
otherwise set `xhr._id_ = getDeviceId()` (the stable device id, passed as
`deviceId`) and store `RequestMeta{name: method ++ " " ++ url}` under that
id.  Result: (new map, the id assigned to `xhr._id_`, `none` when the open
was ignored). -/
def handleRequestOpen (ignoreURL : String → Bool) (deviceId : String)
    (method url : String) (st : RequestMap) : RequestMap × Option String :=
  if ignoreURL url then (st, none)
  else (setAssoc deviceId { name := method ++ " " ++ url } st, some deviceId)

/-- `handleRequestSend(data, xhr)`: read `xhr._id_` (absent when the open
was ignored), look up the RequestMeta; when present, stamp
`sendTime = Date.now()`. -/
def handleRequestSend (now : Int) (xhrId : Option String) (st : RequestMap) : RequestMap :=
  match xhrId with
  | none => st
  | some i =>
    match lookupAssoc i st with
    | none => st
    | some meta => setAssoc i { meta with sendTime := some now } st

/-- One emitted NetworkCall timing event: the stored request name, the
stored send time, and `duration = Date.now() - sendTime`.  A `none`
send time is JavaScript `undefined`, and the subtraction
`Date.now() - undefined` is `NaN`, embedded as a `none` duration. -/
structure NetworkEvent where
  name : String
  sendTime : Option Int
  duration : Option Int
deriving Repr, DecidableEq

/-- `handleResponse(status, timeout, resp, respUrl, respType, xhr)`: read
`xhr._id_`, look up the RequestMeta; when present, emit one NetworkCall
timing event from its name and send time.  The map is not modified, and none
of the response arguments (in particular the status code, kept here as the
unused `_status`) influence the result. -/
def handleResponse (now : Int) (_status : Int) (xhrId : Option String)
    (st : RequestMap) : RequestMap × List NetworkEvent :=
  match xhrId.bind (fun i => lookupAssoc i st) with
  | none => (st, [])
  | some meta =>
    (st, [{ name := meta.name
            sendTime := meta.sendTime
            duration := meta.sendTime.map (fun s => now - s) }])

/-! ## Helper lemmas about the map embedding -/

theorem lookupAssoc_setAssoc_self {α : Type} (k : String) (v : α) (m : List (String × α)) :
    lookupAssoc k (setAssoc k v m) = some v := by
  induction m with
  | nil => simp [setAssoc, lookupAssoc]
  | cons hd tl ih =>
    by_cases h : hd.1 = k
    · simp [setAssoc, lookupAssoc, h]
    · simp [setAssoc, lookupAssoc, h, ih]

theorem deleteAssoc_setAssoc_of_lookup_none {α : Type} (k : String) (v : α)
    (m : List (String × α)) (h : lookupAssoc k m = none) :
    deleteAssoc k (setAssoc k v m) = m := by
  induction m with
  | nil => simp [setAssoc, deleteAssoc]
  | cons hd tl ih =>
    by_cases hk : hd.1 = k
    · simp [lookupAssoc, hk] at h
    · simp only [lookupAssoc, hk, if_false] at h
      simp [setAssoc, deleteAssoc, hk, ih h]

theorem setAssoc_setAssoc_self {α : Type} (k : String) (v1 v2 : α) (m : List (String × α)) :
    setAssoc k v2 (setAssoc k v1 m) = setAssoc k v2 m := by
  induction m with
  | nil => simp [setAssoc]
  | cons hd tl ih =>
    by_cases h : hd.1 = k
    · simp [setAssoc, h]
    · simp [setAssoc, h, ih]

theorem setAssoc_of_lookup_none {α : Type} (k : String) (v : α) (m : List (String × α))
    (h : lookupAssoc k m = none) : setAssoc k v m = m ++ [(k, v)] := by
  induction m with
  | nil => simp [setAssoc]
  | cons hd tl ih =>
    by_cases hk : hd.1 = k
    · simp [lookupAssoc, hk] at h
    · simp only [lookupAssoc, hk, if_false] at h
      simp [setAssoc, hk, ih h]

theorem not_mem_keys_of_lookup_none {α : Type} (k : String) (m : List (String × α))
    (h : lookupAssoc k m = none) : k ∉ m.map Prod.fst := by
  induction m with
  | nil => simp
  | cons hd tl ih =>
    by_cases hk : hd.1 = k
    · simp [lookupAssoc, hk] at h
    · simp only [lookupAssoc, hk, if_false] at h
      simp only [List.map_cons, List.mem_cons]
      rintro (rfl | hmem)
      · exact hk rfl
      · exact ih h hmem

/-! ## Claim C1: idle-timeout rotation -/

/-- Claim C1 (code behavior at the failing input): when
`transmitRealUserMonitoringEvent` is called while every `Date.now()` reading
exceeds `lastSessionInteractionTime` by more than the 30-minute threshold,
the call never returns for any fuel bound: the idle check re-fires inside
the recursive `transmit(SessionEnd)` issued by `rotateRUMSession` before
`lastSessionInteractionTime` is ever reset, so the transmit/rotate pair
recurses forever and no SessionEnd, SessionStart or triggering event is
sent — the claimed "exactly one SessionEnd, one SessionStart, then the
event" sequence never happens. -/
theorem rumRun_expired_diverges (clock : Nat → Int) (st : RUMState)
    (h : ∀ j : Nat, clock j - st.lastSessionInteractionTime > sessionRotateThreshold) :
    ∀ (fuel k : Nat) (c : RUMCall), rumRun clock fuel c k st = none := by
  intro fuel
  induction fuel with
  | zero => intro k c; cases c <;> rfl
  | succ n ih =>
    intro k c
    cases c with
    | transmit ev =>
      simp only [rumRun, if_pos (h k), ih (k + 1) RUMCall.rotate]
    | rotate =>
      simp only [rumRun, ih k (RUMCall.transmit "SessionEnd")]

/-- A concrete RUM state whose last interaction happened at time 0. -/
def rumStateEx : RUMState :=
  { lastSessionInteractionTime := 0, sessionId := 0, nextSessionId := 1, events := [] }

/-- Claim C1 witness: a concrete expired state (last interaction at 0, the
clock stuck at 30 minutes + 1 ms) on which the transmit call returns no
result for fuel 5. -/
theorem rumRun_expired_diverges_witness :
    ((fun _ : Nat => (1800001 : Int)) 0 - rumStateEx.lastSessionInteractionTime
      > sessionRotateThreshold) ∧
    rumRun (fun _ => (1800001 : Int)) 5 (RUMCall.transmit "EventTiming") 0 rumStateEx
      = none := by
  refine ⟨by decide, ?_⟩
  apply rumRun_expired_diverges
  intro j
  show (1800001 : Int) - rumStateEx.lastSessionInteractionTime > sessionRotateThreshold
  decide

/-! ## Claims C5, C7, C10: view timing correlator -/

/-- Claim C5 counterexample: with an empty ignore list,
`viewBeginsLoading("Home", 0)` followed by `viewFinishesLoading("Home", 5)`
emits no ViewLoaded event at all (the zero start time is falsy), refuting
"emits exactly one ViewLoaded timing event whose duration equals
round(t1 - t0)" at t0 = 0, t1 = 5. -/
theorem viewLoad_zero_start_cex :
    (viewFinishesLoading (fun _ => false) "Home" 5 (viewBeginsLoading "Home" 0 [])).2 = [] := by
  decide

/-- Claim C5 (amended): for a view name with no pending load,
`viewFinishesLoading` emits nothing; and when additionally the recorded
start time `t0` is nonzero (truthy) and the cleaned view name is not
ignored, `viewBeginsLoading(X, t0)` followed by `viewFinishesLoading(X, t1)`
emits exactly one ViewLoaded timing event with duration
`round(t1 - t0) = t1 - t0` and removes the pending record. -/
theorem viewLoad_roundtrip (ig : String → Bool) (X : String) (t0 t1 : Int)
    (m : LoadingViews) (hpend : lookupAssoc X m = none) (ht0 : t0 ≠ 0)
    (hig : ig (cleanViewName X) = false) :
    (viewFinishesLoading ig X t1 m).2 = [] ∧
    viewFinishesLoading ig X t1 (viewBeginsLoading X t0 m)
      = (m, [{ name := cleanViewName X, duration := t1 - t0 }]) := by
  constructor
  · simp [viewFinishesLoading, hpend]
  · simp [viewBeginsLoading, hpend, viewFinishesLoading, lookupAssoc_setAssoc_self,
      ht0, hig, deleteAssoc_setAssoc_of_lookup_none X t0 m hpend]

/-- Claim C5 witness: the canonical begin/finish sequence for view "Home"
with start time 3 and finish time 10 emits one event of duration 7. -/
theorem viewLoad_roundtrip_witness :
    (viewFinishesLoading (fun _ => false) "Home" 10 []).2 = [] ∧
    viewFinishesLoading (fun _ => false) "Home" 10 (viewBeginsLoading "Home" 3 [])
      = ([], [{ name := cleanViewName "Home", duration := 10 - 3 }]) :=
  viewLoad_roundtrip (fun _ => false) "Home" 3 10 [] rfl (by decide) rfl

/-- Claim C7: a second `viewBeginsLoading` for a name that is already
pending leaves the map — in particular the stored start time — unchanged,
and the map keeps at most one record per view name (key distinctness is
preserved by every `viewBeginsLoading` call). -/
theorem viewBeginsLoading_duplicate_ignored (X : String) (t0 t' : Int) (m : LoadingViews)
    (h : lookupAssoc X m = some t0) :
    viewBeginsLoading X t' m = m ∧
    lookupAssoc X (viewBeginsLoading X t' m) = some t0 := by
  have hb : viewBeginsLoading X t' m = m := by simp [viewBeginsLoading, h]
  exact ⟨hb, by rw [hb, h]⟩

/-- Claim C7 witness: a duplicate begin for "Home" (pending with start 3)
with new time 7 keeps the map, and the stored start time, intact. -/
theorem viewBeginsLoading_duplicate_ignored_witness :
    viewBeginsLoading "Home" 7 [("Home", 3)] = [("Home", 3)] ∧
    lookupAssoc "Home" (viewBeginsLoading "Home" 7 [("Home", 3)]) = some 3 :=
  viewBeginsLoading_duplicate_ignored "Home" 3 7 [("Home", 3)] rfl

/-- Claim C7 auxiliary: every `viewBeginsLoading` call preserves key
distinctness of the pending-view map, so the map holds at most one
in-flight record per view name. -/
theorem viewBeginsLoading_keys_nodup (X : String) (t : Int) (m : LoadingViews)
    (h : (m.map Prod.fst).Nodup) : ((viewBeginsLoading X t m).map Prod.fst).Nodup := by
  unfold viewBeginsLoading
  cases hl : lookupAssoc X m with
  | some v => simp [h]
  | none =>
    simp only [hl, Option.isSome_none, Bool.false_eq_true, if_false]
    rw [setAssoc_of_lookup_none X t m hl]
    simp only [List.map_append, List.map_cons, List.map_nil]
    rw [List.nodup_append]
    refine ⟨h, List.nodup_singleton X, ?_⟩
    intro a ha hb
    simp only [List.mem_singleton] at hb
    exact not_mem_keys_of_lookup_none X m hl (hb ▸ ha)

/-- Claim C10: after `viewBeginsLoading(X, 0)` records the falsy start time
0 for a previously non-pending name, `viewFinishesLoading(X, t1)` emits no
event and leaves the map unchanged (the record is not removed), so the name
stays pending. -/
theorem viewLoad_zero_start_pending_forever (ig : String → Bool) (X : String) (t1 : Int)
    (m : LoadingViews) (h : lookupAssoc X m = none) :
    viewFinishesLoading ig X t1 (viewBeginsLoading X 0 m)
      = (viewBeginsLoading X 0 m, []) ∧
    lookupAssoc X (viewBeginsLoading X 0 m) = some 0 := by
  have hl : lookupAssoc X (viewBeginsLoading X 0 m) = some 0 := by
    simp [viewBeginsLoading, h, lookupAssoc_setAssoc_self]
  refine ⟨?_, hl⟩
  simp [viewFinishesLoading, hl]

/-! ## Claims C2, C3, C9: network activity correlator -/

/-- A concrete pending request: opened and stamped with send time 5. -/
def reqMetaEx : RequestMeta := { name := "GET /a", sendTime := some 5 }

/-- A concrete pending-request map holding `reqMetaEx` under id `"dev"`. -/
def reqMapEx : RequestMap := [("dev", reqMetaEx)]

/-- Claim C2 counterexample: after a response for id `"dev"`, the
RequestMeta entry is still in the map (it is never removed), and a second
response for the same id emits a second NetworkCall event — refuting both
"the map entry is removed on response" and "at most one NetworkCall event is
ever emitted per correlation id". -/
theorem handleResponse_keeps_entry_cex :
    lookupAssoc "dev" (handleResponse 10 200 (some "dev") reqMapEx).1 = some reqMetaEx ∧
    (handleResponse 10 200 (some "dev") reqMapEx).2.length = 1 ∧
    (handleResponse 20 404 (some "dev")
        (handleResponse 10 200 (some "dev") reqMapEx).1).2.length = 1 := by
  decide

/-- Claim C2 (amended): `handleResponse` never modifies the pending-request
map (the entry is not removed).  It emits exactly one NetworkCall timing
event when the id's RequestMeta is present and none when it is absent, and
its result does not depend on the response's status code; consequently each
additional response for a still-mapped id emits an additional event. -/
theorem handleResponse_spec (now status status' : Int) (xhrId : Option String)
    (st : RequestMap) :
    (handleResponse now status xhrId st).1 = st ∧
    (handleResponse now status xhrId st).2.length
      = (if (xhrId.bind (fun i => lookupAssoc i st)).isSome then 1 else 0) ∧
    handleResponse now status xhrId st = handleResponse now status' xhrId st := by
  refine ⟨?_, ?_, rfl⟩ <;>
    cases h : xhrId.bind (fun i => lookupAssoc i st) <;> simp [handleResponse, h]

/-- Claim C3 counterexample: two non-ignored opens (different method/url)
are both assigned the same correlation id — the stable device id — and the
second open overwrites the first request's RequestMeta while that request is
still pending: the map holds only the second request's record. -/
theorem handleRequestOpen_reuses_id_cex :
    (handleRequestOpen (fun _ => false) "device" "GET" "http://a" []).2
      = (handleRequestOpen (fun _ => false) "device" "POST" "http://b"
          (handleRequestOpen (fun _ => false) "device" "GET" "http://a" []).1).2 ∧
    (handleRequestOpen (fun _ => false) "device" "POST" "http://b"
        (handleRequestOpen (fun _ => false) "device" "GET" "http://a" []).1).1
      = [("device", { name := "POST http://b" })] := by
  constructor <;> rfl

/-- Claim C3 (amended): every non-ignored `handleRequestOpen` call assigns
the same correlation id — `getDeviceId()`, the stable device id — to the
call context, so a second non-ignored open while another request is in
flight overwrites that request's RequestMeta: after two opens the map stores
only the second request's record under the device id. -/
theorem handleRequestOpen_device_id_overwrite (ignoreURL : String → Bool)
    (deviceId method1 url1 method2 url2 : String) (st : RequestMap)
    (h1 : ignoreURL url1 = false) (h2 : ignoreURL url2 = false) :
    (handleRequestOpen ignoreURL deviceId method1 url1 st).2 = some deviceId ∧
    (handleRequestOpen ignoreURL deviceId method2 url2
        (handleRequestOpen ignoreURL deviceId method1 url1 st).1).2 = some deviceId ∧
    (handleRequestOpen ignoreURL deviceId method2 url2
        (handleRequestOpen ignoreURL deviceId method1 url1 st).1).1
      = setAssoc deviceId { name := method2 ++ " " ++ url2 } st ∧
    lookupAssoc deviceId
        (handleRequestOpen ignoreURL deviceId method2 url2
          (handleRequestOpen ignoreURL deviceId method1 url1 st).1).1
      = some { name := method2 ++ " " ++ url2 } := by
  have e1 : handleRequestOpen ignoreURL deviceId method1 url1 st
      = (setAssoc deviceId { name := method1 ++ " " ++ url1 } st, some deviceId) := by
    simp [handleRequestOpen, h1]
  have e2 : handleRequestOpen ignoreURL deviceId method2 url2
        (setAssoc deviceId { name := method1 ++ " " ++ url1 } st)
      = (setAssoc deviceId { name := method2 ++ " " ++ url2 }
          (setAssoc deviceId { name := method1 ++ " " ++ url1 } st), some deviceId) := by
    simp [handleRequestOpen, h2]
  rw [e1]
  simp only [e2, setAssoc_setAssoc_self]
  simp [lookupAssoc_setAssoc_self]

/-- Claim C3 witness: two concrete non-ignored opens on an empty map. -/
theorem handleRequestOpen_device_id_overwrite_witness :
    (handleRequestOpen (fun _ => false) "device" "GET" "http://a" []).2 = some "device" ∧
    (handleRequestOpen (fun _ => false) "device" "POST" "http://b"
        (handleRequestOpen (fun _ => false) "device" "GET" "http://a" []).1).2
      = some "device" ∧
    (handleRequestOpen (fun _ => false) "device" "POST" "http://b"
        (handleRequestOpen (fun _ => false) "device" "GET" "http://a" []).1).1
      = setAssoc "device" { name := "POST" ++ " " ++ "http://b" } [] ∧
    lookupAssoc "device"
        (handleRequestOpen (fun _ => false) "device" "POST" "http://b"
          (handleRequestOpen (fun _ => false) "device" "GET" "http://a" []).1).1
      = some { name := "POST" ++ " " ++ "http://b" } :=
  handleRequestOpen_device_id_overwrite (fun _ => false) "device" "GET" "http://a"
    "POST" "http://b" [] rfl rfl

/-- Claim C9: when a RequestMeta exists for an id but `handleRequestSend`
never stamped its send time, `handleResponse` still emits one NetworkCall
timing event (the response is not dropped), carrying the absent send time
and the `Date.now() - undefined = NaN` duration (both embedded as `none`);
the map is again left unchanged. -/
theorem handleResponse_missing_sendTime (now status : Int) (i : String)
    (st : RequestMap) (meta : RequestMeta) (h : lookupAssoc i st = some meta)
    (hs : meta.sendTime = none) :
    (handleResponse now status (some i) st).2
      = [{ name := meta.name, sendTime := none, duration := none }] ∧
    (handleResponse now status (some i) st).1 = st := by
  simp [handleResponse, h, hs]

/-- Claim C9 witness: a request opened under id `"dev"` whose send callback
never fired still produces an event, with `none` send time and duration. -/
theorem handleResponse_missing_sendTime_witness :
    (handleResponse 10 200 (some "dev") [("dev", { name := "GET /a" })]).2
      = [{ name := RequestMeta.name { name := "GET /a" }, sendTime := none,
           duration := none }] ∧
    (handleResponse 10 200 (some "dev") [("dev", { name := "GET /a" })]).1
      = [("dev", { name := "GET /a" })] :=
  handleResponse_missing_sendTime 10 200 "dev" [("dev", { name := "GET /a" })]
    { name := "GET /a" } rfl rfl

/-! ## Claim C4: `clearSession` -/

/-- A concrete non-trivial prior session used to refute Claim C4. -/
def prevSessionEx : Session :=
  { tags := ["x", "y"]
    customData := [("k", JsonVal.num 3)]
    breadcrumbs := [{ message := "clicked" }]
    user := { identifier := "someone" } }

/-- Claim C4 counterexample: after `clearSession`, the tags set is not
empty — `getCleanSession` seeds it with the `'React Native'` tag — refuting
"its tags set ... [is] empty". -/
theorem clearSession_tags_nonempty_cex :
    (clearSession "d" prevSessionEx).tags = ["React Native"] ∧
    (clearSession "d" prevSessionEx).tags ≠ [] := by
  decide

/-- Claim C4 (amended): for every prior session state, after `clearSession`
the current session's user identifier starts with `"anonymous-"` (it is
exactly `"anonymous-"` followed by the device-based id), its breadcrumbs
and customData are empty, and its tags set contains exactly the seeded
`'React Native'` tag (it is not empty). -/
theorem clearSession_spec (deviceId : String) (prev : Session) :
    (clearSession deviceId prev).user.identifier = "anonymous-" ++ deviceId ∧
    (∃ rest, (clearSession deviceId prev).user.identifier = "anonymous-" ++ rest) ∧
    (clearSession deviceId prev).tags = ["React Native"] ∧
    (clearSession deviceId prev).breadcrumbs = [] ∧
    (clearSession deviceId prev).customData = [] :=
  ⟨rfl, ⟨deviceId, rfl⟩, rfl, rfl, rfl⟩

/-! ## Claim C6: crash report payload -/

/-- The synthetic error of the round-trip property: `message = "boom"`. -/
def errEx : JSError := { name := some "Error", message := some "boom", stringForm := "Error: boom" }

/-- The single stack frame of the round-trip property. -/
def frameEx : StackFrame := { file := "a.js", methodName := none, lineNumber := 5, column := 2 }

/-- The session of the round-trip property, whose tags are `{"x"}`. -/
def sessEx : Session :=
  { tags := ["x"], customData := [], breadcrumbs := [], user := { identifier := "u" } }

/-- The payload built from `errEx`, `[frameEx]` and `sessEx`. -/
def crashEx : CrashReportPayload :=
  generateCrashReportPayload 0 0 {} "2.0.0" "ios" "" errEx (StackFramesInput.arr [frameEx]) sessEx

/-- Claim C6: the payload built from an error with message `"boom"`, the
single frame `{file: "a.js", lineNumber: 5, column: 2}` and a session with
tags `{"x"}` has `Details.Error.Message = "boom"`, `Details.Tags = ["x"]`
and exactly one stack-trace entry, whose `LineNumber` is 5; and for every
input error missing a name or message the corresponding field defaults to
the empty string (the build always produces a payload). -/
theorem generateCrashReportPayload_spec (occ tz : Int) (env : EnvironmentOverrides)
    (cv pos gv : String) (e : JSError) (sf : StackFramesInput) (s : Session)
    (hn : e.name = none) (hm : e.message = none) :
    crashEx.Details.Error.Message = "boom" ∧
    crashEx.Details.Tags = ["x"] ∧
    crashEx.Details.Error.StackTrace.map CrashFrame.LineNumber = [5] ∧
    (generateCrashReportPayload occ tz env cv pos gv e sf s).Details.Error.ClassName = "" ∧
    (generateCrashReportPayload occ tz env cv pos gv e sf s).Details.Error.Message = "" := by
  refine ⟨by decide, by decide, by decide, ?_, ?_⟩ <;>
    simp [generateCrashReportPayload, jsOrString, hn, hm]

/-- Claim C6 witness: a concrete error with no name and no message yields
empty `ClassName` and `Message` fields alongside the round-trip facts. -/
theorem generateCrashReportPayload_spec_witness :
    crashEx.Details.Error.Message = "boom" ∧
    crashEx.Details.Tags = ["x"] ∧
    crashEx.Details.Error.StackTrace.map CrashFrame.LineNumber = [5] ∧
    (generateCrashReportPayload 0 0 {} "" "" ""
        { name := none, message := none, stringForm := "" }
        (StackFramesInput.single frameEx) sessEx).Details.Error.ClassName = "" ∧
    (generateCrashReportPayload 0 0 {} "" "" ""
        { name := none, message := none, stringForm := "" }
        (StackFramesInput.single frameEx) sessEx).Details.Error.Message = "" :=
  generateCrashReportPayload_spec 0 0 {} "" "" ""
    { name := none, message := none, stringForm := "" }
    (StackFramesInput.single frameEx) sessEx rfl rfl

/-! ## Claim C8: unknown event types in `sendCustomRUMEvent` -/

/-- Claim C8 counterexample: the sdk variant's `sendCustomRUMEvent`, called
with an event type that is neither ViewLoaded nor NetworkCall, performs no
transmission but also logs no warning — it falls through both `if`
statements silently — refuting "logs a warning". -/
theorem sendCustomRUMEvent_silent_cex :
    sendCustomRUMEvent 100 "Bogus" "x" 5 = ([], []) := by
  decide

/-- Claim C8 (amended): for every event type that is neither ViewLoaded nor
NetworkCall, both `sendCustomRUMEvent` variants perform no transmission and
return normally; the `part_000` variant logs an "Unknown RUM event type"
warning, while the sdk variant returns silently without logging. -/
theorem sendCustomRUMEvent_unknown_type (now : Int) (eventType name : String)
    (duration : Int) (h1 : eventType ≠ kViewLoaded) (h2 : eventType ≠ kNetworkCall) :
    sendCustomRUMEvent now eventType name duration = ([], []) ∧
    sendCustomRUMEventV0 now eventType name duration
      = ([], ["Unknown RUM event type:"]) := by
  constructor <;> simp [sendCustomRUMEvent, sendCustomRUMEventV0, h1, h2]

/-- Claim C8 witness: the concrete unknown event type `"Bogus"`. -/
theorem sendCustomRUMEvent_unknown_type_witness :
    sendCustomRUMEvent 100 "Bogus" "x" 5 = ([], []) ∧
    sendCustomRUMEventV0 100 "Bogus" "x" 5 = ([], ["Unknown RUM event type:"]) :=
  sendCustomRUMEvent_unknown_type 100 "Bogus" "x" 5 (by decide) (by decide)

/-- Claim C10 witness: begin("Home", 0) then finish("Home", 9) emits nothing
and keeps the record pending with start time 0. -/
theorem viewLoad_zero_start_pending_forever_witness :
    viewFinishesLoading (fun _ => false) "Home" 9 (viewBeginsLoading "Home" 0 [])
      = (viewBeginsLoading "Home" 0 [], []) ∧
    lookupAssoc "Home" (viewBeginsLoading "Home" 0 []) = some 0 :=
  viewLoad_zero_start_pending_forever (fun _ => false) "Home" 9 [] rfl

end Raygun
